import Mathlib

set_option autoImplicit false

namespace Pyopenapi3

/-!
Shallow embedding of the pyopenapi3 repository (directory `src/pyopenapi3`):
the field classes of `objects.py`, the type-to-schema compiler of `utils.py`,
the pydantic validators of `schemas.py`, and the builders of `builder.py` and
`builders.py`.  Python dicts are modelled as insertion-ordered association
lists, exceptions as an `Except PyErr` result, and `collections.deque` as a
list whose head is the left end.
-/

/-- Python exceptions raised by the embedded code. -/
inductive PyErr where
  | valueError (msg : String)
  | assertionError
  | typeError (msg : String)
  | attributeError (msg : String)
  deriving DecidableEq

/-- Compiled schema nodes.  `prim` mirrors the `_PrimitiveDTSchema` pydantic
objects built by `convert_primitive_to_schema`, `ref` mirrors
`ReferenceObject`, `obj` mirrors the `ComponentsObject`/`ObjectsDTSchema`
object schemas, and the three `array*` constructors mirror an `ArraySchema`
whose `items` field is respectively the empty dict `{}`, a single schema, or
a dict with a `oneOf` list. -/
inductive Schema where
  | prim (ptype : String) (format : Option String) (description : Option String)
      (readOnly : Option Bool) (exampleVal : Option String)
  | ref (path : String)
  | obj (description : Option String) (properties : List (String × Schema))
  | arrayEmptyItems
  | arrayItems (s : Schema)
  | arrayOneOf (l : List Schema)

/-- Python dict assignment `m[k] = v`: overwrite in place when the key is
present, append otherwise (insertion order preserved). -/
def dictInsert {α : Type} (m : List (String × α)) (k : String) (v : α) :
    List (String × α) :=
  match m with
  | [] => [(k, v)]
  | (k0, v0) :: rest =>
      if k0 = k then (k0, v) :: rest else (k0, v0) :: dictInsert rest k v

/-- Python dict lookup `m.get(k)`. -/
def dictGet {α : Type} (m : List (String × α)) (k : String) : Option α :=
  match m with
  | [] => none
  | (k0, v0) :: rest => if k0 = k then some v0 else dictGet rest k

/-- Python dict membership `k in m`. -/
def dictMem {α : Type} (m : List (String × α)) (k : String) : Bool :=
  (dictGet m k).isSome

/-- Names of the three concrete `Array` subclasses manufactured by
`Array.__class_getitem__` in `objects.py` (lines 106-124). -/
inductive ArrayName where
  | singleArr
  | mixedArr
  | anyArr
  deriving DecidableEq

mutual
/-- The field classes of `objects.py` as they reach `create_schema`:
the primitive classes (lines 23-77), the concrete array classes with their
`tvars` tuple (lines 86-124), and user component classes (subclasses of
`Component`, line 141) carrying their name and the `{name: schema}` dicts
attached to marked attributes by `mark_component_and_attach_schema`. -/
inductive PyType where
  | boolean
  | pstring
  | byte
  | date
  | binary
  | dateTime
  | password
  | email
  | number
  | float
  | double
  | integer
  | int32
  | int64
  | arr (nm : ArrayName) (tvars : PyTypeList)
  | component (name : String) (marked : List (String × Schema))

/-- The `tvars` tuple of an array class. -/
inductive PyTypeList where
  | nil
  | cons (head : PyType) (tail : PyTypeList)
end

/-- `__name__` of a field class.  The array classes are created with the
names `SingleArray`, `MixedTypeArray`, `AnyTypeArray` (`objects.py` 81-83);
a component class keeps the user class name (`inject_component`). -/
def pyName : PyType → String
  | .boolean => "Boolean"
  | .pstring => "String"
  | .byte => "Byte"
  | .date => "Date"
  | .binary => "Binary"
  | .dateTime => "DateTime"
  | .password => "Password"
  | .email => "Email"
  | .number => "Number"
  | .float => "Float"
  | .double => "Double"
  | .integer => "Integer"
  | .int32 => "Int32"
  | .int64 => "Int64"
  | .arr .singleArr _ => "SingleArray"
  | .arr .mixedArr _ => "MixedTypeArray"
  | .arr .anyArr _ => "AnyTypeArray"
  | .component n _ => n

/-- `is_arb_type` (`objects.py` 136-137): `__type.__name__ == 'AnyTypeArray'`. -/
def isArbType (t : PyType) : Bool :=
  pyName t == "AnyTypeArray"

/-- `issubclass(-, Primitive)` under the `objects.py` hierarchy. -/
def isPrimitiveSub : PyType → Bool
  | .arr _ _ => false
  | .component _ _ => false
  | _ => true

/-- `issubclass(-, Array)`. -/
def isArraySub : PyType → Bool
  | .arr _ _ => true
  | _ => false

/-- `issubclass(-, Component)`. -/
def isComponentSub : PyType → Bool
  | .component _ _ => true
  | _ => false

/-- `issubclass(-, Number)`: in `objects.py` the `Number` subclasses are
`Number`, `Float`, `Double` only — `Integer` extends `Primitive` directly
(line 68), so the integer classes are *not* `Number` subclasses. -/
def isNumberSub : PyType → Bool
  | .number => true
  | .float => true
  | .double => true
  | _ => false

/-- `issubclass(-, String)` in `objects.py` (lines 27-53). -/
def isStringSub : PyType → Bool
  | .pstring => true
  | .byte => true
  | .date => true
  | .binary => true
  | .dateTime => true
  | .password => true
  | .email => true
  | _ => false

/-- `issubclass(-, Integer)` in `objects.py` (lines 68-77). -/
def isIntegerSub : PyType → Bool
  | .integer => true
  | .int32 => true
  | .int64 => true
  | _ => false

/-- The `{'type': ..., 'format': ...}` dict produced by the `parse_*`
helpers of `utils.py`. -/
structure PrimAttrs where
  ptype : String
  format : Option String := none
  deriving DecidableEq

/-- `parse_strings` (`utils.py` 133-137): for `String` itself just
`{'type': 'string'}`, for every other string class additionally
`'format': s.__name__.lower()`, written out per class (`"DateTime".lower()`
is `"datetime"`). -/
def parseStrings (s : PyType) : PrimAttrs :=
  match s with
  | .pstring => { ptype := "string" }
  | .byte => { ptype := "string", format := some "byte" }
  | .date => { ptype := "string", format := some "date" }
  | .binary => { ptype := "string", format := some "binary" }
  | .dateTime => { ptype := "string", format := some "datetime" }
  | .password => { ptype := "string", format := some "password" }
  | .email => { ptype := "string", format := some "email" }
  -- `parse_strings` is only reached under `issubclass(s, String)`, so the
  -- `.lower()` of any other class name is left unmodelled here.
  | t => { ptype := "string", format := some (pyName t) }

/-- `parse_numbers` (`utils.py` 140-148) with `n.__name__.lower()` written
out per class; returns `none` when no branch matches (the Python function
falls through returning `None`).  Under the `objects.py` hierarchy only
`Number`, `Float`, `Double` ever reach it. -/
def parseNumbers (n : PyType) : Option PrimAttrs :=
  match n with
  | .number => some { ptype := "number" }
  | .integer => some { ptype := "integer" }
  | .float => some { ptype := "number", format := some "float" }
  | .double => some { ptype := "number", format := some "double" }
  | .int32 => some { ptype := "integer", format := some "int32" }
  | .int64 => some { ptype := "integer", format := some "int64" }
  | _ => none

/-- `parse_attr` (`utils.py` 123-130).  An `o` that is neither a `Number`
subclass, a `String` subclass, nor `Boolean` raises
`ValueError(f"Attr for {o} not defined.")`; under the `objects.py` hierarchy
this includes all the integer classes.  A `parse_numbers` fall-through would
surface as a `TypeError` when the caller unpacks `None`. -/
def parseAttr (o : PyType) : Except PyErr PrimAttrs :=
  if isNumberSub o then
    match parseNumbers o with
    | some a => .ok a
    | none => .error (.typeError "argument after ** must be a mapping")
  else if isStringSub o then .ok (parseStrings o)
  else match o with
    | .boolean => .ok { ptype := "boolean" }
    | _ => .error (.valueError ("Attr for " ++ pyName o ++ " not defined."))

/-- `create_reference` (`utils.py` 151-152). -/
def createReference (name : String) : Schema :=
  .ref ("#/components/schemas/" ++ name)

/-- The `properties.update(property_schema)` loop of
`_convert_component_to_schema` (`utils.py` 200-218): the marked
`{name: schema}` dicts are merged in class-dict order. -/
def componentProperties (marked : List (String × Schema)) :
    List (String × Schema) :=
  marked.foldl (fun acc kv => dictInsert acc kv.1 kv.2) []

/-- `convert_component_to_schema` (`utils.py` 188-197) together with
`_convert_component_to_schema`: a reference when `is_reference`, otherwise
the inline object schema built from the component's marked attributes. -/
def convertComponentToSchema (name : String) (marked : List (String × Schema))
    (description : Option String) (isReference : Bool) : Schema :=
  if isReference then createReference name
  else .obj description (componentProperties marked)

/-- `convert_primitive_to_schema` (`utils.py` 221-237): `description` and
`example` are copied only when not `None`, and `readOnly` is set only when
`read_only` is truthy. -/
def convertPrimitiveToSchema (p : PyType) (description : Option String)
    (readOnly : Option Bool) (exampleVal : Option String) : Except PyErr Schema :=
  match parseAttr p with
  | .error e => .error e
  | .ok a =>
      .ok (.prim a.ptype a.format description
        (if readOnly = some true then some true else none) exampleVal)

mutual
/-- `create_schema` (`utils.py` 165-185).  Arguments after the type are
`is_reference`, `description`, `read_only`, `example`.  For a `Component`
the source asserts `is_reference is not None`.  The `Array` branch states
the body of `convert_array_to_schema` (`utils.py` 240-276) inline, so that
the mutual recursion is structural; the standalone `convertArrayToSchema`
below restates that function and is proved to agree.  In the source, a
one-member `tvars` whose member `is_arb_type` keeps `items = {}`, and
otherwise the single member is compiled with `is_reference=True`; every
other `tvars` tuple — including the empty `tvars` that `Array[...]` gets
under `objects.py` — takes the mixed branch building
`items = \x7b'oneOf': [...]\x7d`. -/
def createSchema : PyType → Option Bool → Option String → Option Bool →
    Option String → Except PyErr Schema
  | .arr _ tvars, _, _, _, _ =>
      (match tvars with
       | .cons t .nil =>
           if isArbType t then .ok .arrayEmptyItems
           else
             match createSchema t (some true) none none none with
             | .error e => .error e
             | .ok s => .ok (.arrayItems s)
       | tv =>
           match createSchemaList tv with
           | .error e => .error e
           | .ok l => .ok (.arrayOneOf l))
  | .component n marked, isReference, description, _, _ =>
      match isReference with
      | none => .error .assertionError
      | some b => .ok (convertComponentToSchema n marked description b)
  | t, _, description, readOnly, ex =>
      convertPrimitiveToSchema t description readOnly ex

/-- The `for t in tvars` loop of the mixed branch of
`convert_array_to_schema`: each member is compiled with the misspelled
keyword `if_reference=True`, which lands in `**kwargs` and leaves
`is_reference` as `None`; the first raised exception propagates. -/
def createSchemaList : PyTypeList → Except PyErr (List Schema)
  | .nil => .ok []
  | .cons t ts =>
      match createSchema t none none none none with
      | .error e => .error e
      | .ok s =>
          match createSchemaList ts with
          | .error e => .error e
          | .ok l => .ok (s :: l)
end

/-- `convert_array_to_schema` (`utils.py` 240-276) as the standalone
function it is in the source; `create_schema` dispatches to it for every
`Array` subclass (theorem `createSchema_arr_eq`). -/
def convertArrayToSchema : PyTypeList → Except PyErr Schema
  | .cons t .nil =>
      if isArbType t then .ok .arrayEmptyItems
      else
        match createSchema t (some true) none none none with
        | .error e => .error e
        | .ok s => .ok (.arrayItems s)
  | tvars =>
      match createSchemaList tvars with
      | .error e => .error e
      | .ok l => .ok (.arrayOneOf l)

/-- `_format_description` (`utils.py` 82-89): strip, drop newlines and tabs,
collapse whitespace runs to single spaces; `None` passes through. -/
def formatDescription (s : Option String) : Option String :=
  match s with
  | none => none
  | some s =>
      some (String.intercalate " "
        ((((s.trim).replace "\n" "").replace "\t" "").split Char.isWhitespace
          |>.filter (fun w => w ≠ "")))

/-- `build_property_schema_from_func` (`utils.py` 279-304): the property
type comes from the method's return annotation and is compiled with
`is_reference=True`, the docstring becoming the description. -/
def buildPropertySchemaFromFunc (propertyType : PyType) (doc : Option String)
    (readOnly : Option Bool) (ex : Option String) : Except PyErr Schema :=
  createSchema propertyType (some true) (formatDescription doc) readOnly ex

/-- The loop of `build_content_schema_from_content` (`utils.py` 353-370):
each `(media_type, field_type)` pair compiles its field with
`is_reference=True` into the incrementally built dict. -/
def buildContentLoop (acc : List (String × Schema)) :
    List (String × PyType) → Except PyErr (List (String × Schema))
  | [] => .ok acc
  | (mt, ft) :: rest =>
      match createSchema ft (some true) none none none with
      | .error e => .error e
      | .ok s => buildContentLoop (dictInsert acc mt s) rest

/-- `build_content_schema_from_content` on a non-`None` content list. -/
def buildContentSchemaFromContent (content : List (String × PyType)) :
    Except PyErr (List (String × Schema)) :=
  buildContentLoop [] content

/-- The schema compile inside `ParamBuilder.build_param` (`builder.py`
299-318): `schema=create_schema(field)` — no `is_reference` argument is
passed, so it stays `None`. -/
def paramBuildSchema (field : PyType) : Except PyErr Schema :=
  createSchema field none none none none

/-- The single canonical registry site (`builder.py` 44-64): the class
branch of `ComponentBuilder.__call__`'s wrapper compiles the injected class
with `is_reference=False` and the raw class docstring as description. -/
def componentBuilderRegistrySchema (name : String)
    (marked : List (String × Schema)) (doc : Option String) :
    Except PyErr Schema :=
  createSchema (.component name marked) (some false) doc none none

/-- The value of a nonempty all-digit character run, `none` otherwise. -/
def pyIntDigits (cs : List Char) : Option Nat :=
  if cs ≠ [] ∧ cs.all Char.isDigit then
    some (cs.foldl (fun n c => 10 * n + (c.toNat - 48)) 0)
  else none

/-- Python `int(s)` on a decimal string: surrounding whitespace stripped,
optional sign, then decimal digits; `none` models the `ValueError` for any
other shape.  (Digit-group underscores and non-ASCII digits, which Python
also accepts, do not occur in this development.) -/
def pyInt (s : String) : Option Int :=
  match (s.toList.dropWhile Char.isWhitespace).reverse.dropWhile
      Char.isWhitespace |>.reverse with
  | '-' :: rest => (pyIntDigits rest).map (fun n => -(n : Int))
  | '+' :: rest => (pyIntDigits rest).map (fun n => (n : Int))
  | cs => (pyIntDigits cs).map (fun n => (n : Int))

/-- The key loop of `OperationObject.validate_response_mapping`
(`schemas.py` 800-820) over the non-`default` keys: `int(key)` failing is a
`ValueError` (only `default` may be non-digit), and a parsed code outside
`range(100, 600)` is a `ValueError` as well. -/
def validateStatusKeys : List String → Except PyErr Unit
  | [] => .ok ()
  | k :: ks =>
      match pyInt k with
      | none =>
          .error (.valueError
            ("The only non-digit key for a response must be 'default'. " ++
              "Can't include '" ++ k ++ "'"))
      | some n =>
          if 100 ≤ n ∧ n < 600 then validateStatusKeys ks
          else .error (.valueError "Only valid status codes allowed.")

/-- `validate_response_mapping` (`schemas.py` 800-820): pop `default`
(`mut_v.pop('default', None)`), then check every remaining key. -/
def validateResponseMapping (keys : List String) : Except PyErr Unit :=
  validateStatusKeys (keys.filter (fun k => k ≠ "default"))

/-- One `(literal_text, field_name, format_spec, conversion)` element of
`string.Formatter().parse`, without the `!conversion` part (none of the
templates in this system use it): `field = some (name, spec)` with
`spec = ""` when the placeholder has no `:`, `field = none` for a trailing
literal-only element. -/
structure FmtToken where
  literal : String
  field : Option (String × String)
  deriving DecidableEq

/-- Split a placeholder body at the first `:` into field name and format
spec (the spec is `""` when there is no colon). -/
def splitAtColon (cs : List Char) : String × String :=
  match cs.dropWhile (fun c => c ≠ ':') with
  | [] => (String.mk cs, "")
  | _ :: spec => (String.mk (cs.takeWhile (fun c => c ≠ ':')), String.mk spec)

mutual
/-- Literal-mode scanner for `string.Formatter().parse`: accumulate literal
text until `{` or the end; an empty string yields no element, and a string
that ends in literal text yields a final element with `field = none`.
Brace escapes `{{`/`}}` are not modelled (no template in this system uses
them). -/
def fmtScanLit (acc : List Char) : List Char → List FmtToken
  | [] => if acc = [] then [] else [⟨String.mk acc.reverse, none⟩]
  | c :: rest =>
      if c = '{' then fmtScanField acc [] rest
      else fmtScanLit (c :: acc) rest

/-- Field-mode scanner: accumulate the placeholder body until `}`.  (On a
`{` never closed, CPython raises `ValueError("Single '{' ...")`; this model
closes the field at the end of the string — no template in this
development is malformed.) -/
def fmtScanField (litAcc : List Char) (fieldAcc : List Char) :
    List Char → List FmtToken
  | [] => [⟨String.mk litAcc.reverse, some (splitAtColon fieldAcc.reverse)⟩]
  | c :: rest =>
      if c = '}' then
        ⟨String.mk litAcc.reverse, some (splitAtColon fieldAcc.reverse)⟩ ::
          fmtScanLit [] rest
      else fmtScanField litAcc (c :: fieldAcc) rest
end

/-- `string.Formatter().parse(s)` as a list of elements. -/
def fmtParse (s : String) : List FmtToken :=
  fmtScanLit [] s.toList

/-- The list comprehension `[a for _, a, _, _ in Formatter().parse(_url)]`
of `ServerObject.validate_url_with_vars` (`schemas.py` 409): the
`field_name` of every element, `none` included. -/
def fmtFieldNames (url : String) : List (Option String) :=
  (fmtParse url).map (fun t => t.field.map Prod.fst)

/-- `getattr(pyopenapi3.objects, name)` restricted to the data-type classes
a path template can name (`_get_field_from_name`, `utils.py` 113-119); any
other attribute name — in particular the empty type name `""` of a bare
`\x7bname\x7d` placeholder — raises `AttributeError`.  (The module's
non-class attributes are not resolvable field types and are omitted.) -/
def objectsAttr (name : String) : Option PyType :=
  if name = "Boolean" then some .boolean
  else if name = "String" then some .pstring
  else if name = "Byte" then some .byte
  else if name = "Date" then some .date
  else if name = "Binary" then some .binary
  else if name = "DateTime" then some .dateTime
  else if name = "Password" then some .password
  else if name = "Email" then some .email
  else if name = "Number" then some .number
  else if name = "Float" then some .float
  else if name = "Double" then some .double
  else if name = "Integer" then some .integer
  else if name = "Int32" then some .int32
  else if name = "Int64" then some .int64
  else none

/-- `_get_field_from_name` on a non-`None` name: `getattr` or
`AttributeError`. -/
def getFieldFromName (name : String) : Except PyErr PyType :=
  match objectsAttr name with
  | some t => .ok t
  | none => .error (.attributeError name)

/-- The generator loop of `parse_name_and_type_from_fmt_str` (`utils.py`
92-110): elements with `arg_name is None` are skipped; for the rest the
format spec is resolved as a type name, an `AttributeError` becoming
`ValueError("A non-`Field` or `OpenApiObject` type was found ...")`. -/
def parseNameAndTypeTokens : List FmtToken →
    Except PyErr (List (String × PyType))
  | [] => .ok []
  | tok :: toks =>
      match tok.field with
      | none => parseNameAndTypeTokens toks
      | some (argName, typeName) =>
          match getFieldFromName typeName with
          | .error _ =>
              .error (.valueError
                ("A non-`Field` or `OpenApiObject` type was found. " ++
                  "Can't use `" ++ typeName ++ "` as a type."))
          | .ok t =>
              match parseNameAndTypeTokens toks with
              | .error e => .error e
              | .ok rest => .ok ((argName, t) :: rest)

/-- `parse_name_and_type_from_fmt_str` (`utils.py` 92-110), fully consumed
as its callers do. -/
def parseNameAndTypeFromFmtStr (s : String) :
    Except PyErr (List (String × PyType)) :=
  parseNameAndTypeTokens (fmtParse s)

mutual
/-- Literal mode of the `re.sub("{([^}]*)}", ...)` normalisation in
`PathsBuilder.__call__` (`builders.py` 360-364): characters outside a
braced group are copied. -/
def normScanLit : List Char → List Char
  | [] => []
  | c :: rest =>
      if c = '{' then normScanField [] rest
      else c :: normScanLit rest

/-- Group mode of the normalisation: the group body is replaced by
`group(1).split(':')[0]` between braces; a `{` with no closing `}` is not
matched by the regex and is left verbatim. -/
def normScanField (acc : List Char) : List Char → List Char
  | [] => '{' :: acc.reverse
  | c :: rest =>
      if c = '}' then
        '{' :: (acc.reverse.takeWhile (fun x => x ≠ ':') ++
          ('}' :: normScanLit rest))
      else normScanField (c :: acc) rest
end

/-- The normalised path written into the paths map by
`PathsBuilder.__call__`: every `\x7bname:TypeName\x7d` token rewritten to
`\x7bname\x7d`. -/
def normalizePath (s : String) : String :=
  String.mk (normScanLit s.toList)

/-- `ServerVariableObject` (`schemas.py` 353-370). -/
structure ServerVariableObject where
  default : String
  enum : Option (List String) := none
  description : Option String := none
  deriving DecidableEq

/-- A validated `ServerObject` (`schemas.py` 373-393); `varsMap` models its
`variables` field. -/
structure ServerObject where
  url : String
  description : Option String := none
  varsMap : Option (List (String × ServerVariableObject)) := none
  deriving DecidableEq

/-- The test of `ServerObject.validate_url_with_vars` (`schemas.py`
395-419): with `args` the `field_name`s of the parsed url (`none`
included), the validator passes iff `all([var in v for var in args])` and
`len(v) <= len(args)`.  A `none` entry (trailing literal text in the url)
is never a dict key, so it fails the `in` test. -/
def urlVarsCheck (url : String) (v : List (String × ServerVariableObject)) :
    Bool :=
  let args := fmtFieldNames url
  (args.all (fun a =>
    match a with
    | some n => dictMem v n
    | none => false)) && v.length ≤ args.length

/-- `ServerObject(url=..., description=..., variables=...)` construction.
The `@validator('variables')` has pydantic's default `always=False`, so it
runs only when a `variables` value is supplied; with no `variables` the
object validates regardless of placeholders in the url. -/
def mkServerObject (url : String) (description : Option String)
    (varsMap : Option (List (String × ServerVariableObject))) :
    Except PyErr ServerObject :=
  match varsMap with
  | none => .ok { url := url, description := description }
  | some v =>
      if urlVarsCheck url v then
        .ok { url := url, description := description, varsMap := some v }
      else
        .error (.valueError
          ("Any, and only any, variable defined in the url must exist " ++
            "in `variables`."))

/-- Decimal digits of a natural number (fuel-based so that concrete values
reduce definitionally; the fuel is always sufficient at `n + 1`). -/
def natDecimalAux : Nat → Nat → List Char
  | 0, _ => []
  | fuel + 1, n =>
      if n < 10 then [Char.ofNat (48 + n)]
      else natDecimalAux fuel (n / 10) ++ [Char.ofNat (48 + n % 10)]

/-- Python `str(...)` of an `int`, as pydantic coerces the integer response
statuses into the `Dict[str, ResponseObject]` keys of `OperationObject`. -/
def intKeyStr : Int → String
  | .ofNat m => String.mk (natDecimalAux (m + 1) m)
  | .negSucc m => String.mk ('-' :: natDecimalAux (m + 2) (m + 1))

/-- The `ValueError` of the GET-no-body rule (`builders.py` 180-182). -/
def getRequestBodyErr : PyErr :=
  .valueError "GET operation cannot have a requestBody."

/-- A declared response (the `Response` dataclass of `objects.py` 225-235
as the operation pipeline consumes it; `status` is its required `int`
field, media-type `content` kept symbolic as declared). -/
structure ResponseDecl where
  status : Int
  description : String
  content : Option (List (String × String)) := none
  deriving DecidableEq

/-- A declared request body (the `RequestBody` dataclass of `objects.py`
238-246; media-type `content` kept symbolic as declared — the media-type
compilation is irrelevant to the verified claims). -/
structure RequestBodyVal where
  content : List (String × String)
  description : Option String := none
  required : Option Bool := none
  deriving DecidableEq

/-- The `request_body` slot of an `Op` annotation: `None`, `...`
(`Ellipsis`), or a declared body.  `OperationBuilder.__call__` treats
exactly `request_body in [None, ...]` as absent. -/
inductive RequestBodyDecl where
  | absentNone
  | absentEllipsis
  | declared (rb : RequestBodyVal)
  deriving DecidableEq

/-- The `Op[request_body, responses]` return annotation of a method
(`objects.py` 249-261). -/
structure OpDecl where
  requestBody : RequestBodyDecl
  responses : List ResponseDecl
  deriving DecidableEq

/-- A pydantic `ParameterObject` as the builders construct it
(`schemas.py` 588-668, fields actually populated by this pipeline). -/
structure ParameterObject where
  name : String
  inField : String
  required : Option Bool := none
  schemaField : Option Schema := none

/-- A pydantic `OperationObject` (`schemas.py` 745-820) as
`OperationBuilder.__call__` constructs it: the drained responses dict
(keys are the stringified statuses), at most one request body, and the
parameter list copied from the bus. -/
structure OperationObject where
  description : Option String := none
  responses : List (String × ResponseDecl)
  requestBody : Option RequestBodyVal := none
  parameters : Option (List ParameterObject) := none

/-- A method found on a path-group class: the identity of the Python
function object (distinct functions get distinct keys), its name, its `Op`
annotation, and its docstring. -/
structure MethodDecl where
  key : Nat
  mname : String
  op : OpDecl
  doc : Option String := none

/-- `deque`-valued topic of the global `_build_cache` (`builders.py`
36-56), keyed by function-object identity.  `Bus.__getitem__` defaults to
an empty deque. -/
def busGet {α : Type} (q : List (Nat × List α)) (k : Nat) : List α :=
  match q with
  | [] => []
  | (k0, v) :: rest => if k0 = k then v else busGet rest k

/-- Store a whole deque under a key (insertion order preserved, new keys
appended). -/
def busSet {α : Type} (q : List (Nat × List α)) (k : Nat) (v : List α) :
    List (Nat × List α) :=
  match q with
  | [] => [(k, v)]
  | (k0, v0) :: rest =>
      if k0 = k then (k0, v) :: rest else (k0, v0) :: busSet rest k v

/-- `Bus.__setitem__` (`builders.py` 51-56): `appendleft` onto the key's
deque. -/
def busPush {α : Type} (q : List (Nat × List α)) (k : Nat) (x : α) :
    List (Nat × List α) :=
  busSet q k (x :: busGet q k)

/-- The `BuilderBus` topics the operation pipeline touches
(`builders.py` 59-67). -/
structure BusState where
  requestBodies : List (Nat × List RequestBodyVal)
  responsesQ : List (Nat × List (Int × ResponseDecl))
  operationsQ : List (Nat × List OperationObject)
  parametersQ : List (Nat × List ParameterObject)

/-- The empty bus cache. -/
def BusState.empty : BusState := ⟨[], [], [], []⟩

/-- `RequestBodyBuilder.__call__` with keyword arguments (`builders.py`
74-101): `request_body in [..., None]` returns without pushing; otherwise a
`RequestBodyObject` is pushed onto `BuilderBus.request_bodies[sub]`. -/
def requestBodyBuilderCall (rb : RequestBodyDecl) (sub : Nat)
    (bus : BusState) : BusState :=
  match rb with
  | .absentNone => bus
  | .absentEllipsis => bus
  | .declared v =>
      { bus with requestBodies := busPush bus.requestBodies sub v }

/-- `ResponseBuilder.__call__` with keyword arguments (`builders.py`
108-135): each response is pushed as a `(status, ResponseObject)` pair onto
`BuilderBus.responses[sub]`, in declaration order. -/
def responseBuilderCall (rs : List ResponseDecl) (sub : Nat)
    (bus : BusState) : BusState :=
  match rs with
  | [] => bus
  | r :: rest =>
      responseBuilderCall rest sub
        { bus with responsesQ := busPush bus.responsesQ sub (r.status, r) }

/-- The `while responses: status, resp = responses.popleft(); ...` drain of
`OperationBuilder.__call__` (`builders.py` 193-196): the deque is consumed
front to back into the `builds['responses']` dict, the `int` statuses being
coerced to the string keys of `OperationObject.responses`. -/
def drainResponses (acc : List (String × ResponseDecl)) :
    List (Int × ResponseDecl) → List (String × ResponseDecl)
  | [] => acc
  | (st, r) :: rest => drainResponses (dictInsert acc (intKeyStr st) r) rest

/-- `OperationBuilder.__call__` on a method (`builders.py` 151-215).  The
global cache always survives (it is module state), so the result is the
cache paired with the raised exception or the emitted `OperationObject`:

* the dead `if method_name in self.builds` check never fires
  (`self.builds` is created empty and never written — the local dict
  `builds` shadows it);
* a `get` whose `request_body` is not in `[None, ...]` raises
  `ValueError("GET operation cannot have a requestBody.")` before anything
  is pushed or consumed;
* otherwise the request-body and response builders push onto the bus, the
  responses deque is drained, one request body is popped when the deque is
  nonempty, and the parameters deque is only *copied* (`list(params)`),
  never consumed;
* `OperationObject(**attrs)` then runs `validate_response_mapping` over the
  response keys; on success the operation is pushed onto
  `BuilderBus.operations[method]`. -/
def operationBuilderCall (m : MethodDecl) (bus : BusState) :
    BusState × Except PyErr OperationObject :=
  if m.mname = "get" ∧ m.op.requestBody ≠ .absentNone ∧
      m.op.requestBody ≠ .absentEllipsis then
    (bus, .error getRequestBodyErr)
  else
    let bus1 := requestBodyBuilderCall m.op.requestBody m.key bus
    let bus2 := responseBuilderCall m.op.responses m.key bus1
    let responses := drainResponses [] (busGet bus2.responsesQ m.key)
    let bus3 := { bus2 with responsesQ := busSet bus2.responsesQ m.key [] }
    let rbQ := busGet bus3.requestBodies m.key
    let rbVal := rbQ.head?
    let bus4 :=
      match rbQ with
      | [] => bus3
      | _ :: rest =>
          { bus3 with requestBodies := busSet bus3.requestBodies m.key rest }
    let paramsQ := busGet bus4.parametersQ m.key
    let params := if paramsQ.isEmpty then none else some paramsQ
    match validateResponseMapping (responses.map Prod.fst) with
    | .error e => (bus4, .error e)
    | .ok _ =>
        let opObj : OperationObject :=
          { description := formatDescription m.doc, responses := responses,
            requestBody := rbVal, parameters := params }
        ({ bus4 with operationsQ := busPush bus4.operationsQ m.key opObj },
          .ok opObj)

/-- Modelled from the spec: the revision of `pyopenapi3.utils` that
`builders.py` imports (`create_schema` without an `is_reference` dance) is
not under `src/`; only this older revision and the callers are.  Per the
specification's static primitive lookup table (§4.1), the `*DTSchema`
constants of the checked-in `schemas.py` (159-270) and the repository's
tests (`tests/test_utils.py`), a primitive compiles to its fixed
`(type, format)` pair — including the `"data"` misspelling of the `Date`
format in `schemas.py` 194 — and a component compiles to a reference.  The
claims apply this function to primitives and components only; arrays are
out of its verified scope. -/
def createSchemaV2 (t : PyType) : Except PyErr Schema :=
  match t with
  | .boolean => .ok (.prim "boolean" none none none none)
  | .pstring => .ok (.prim "string" none none none none)
  | .byte => .ok (.prim "string" (some "byte") none none none)
  | .date => .ok (.prim "string" (some "data") none none none)
  | .binary => .ok (.prim "string" (some "binary") none none none)
  | .dateTime => .ok (.prim "string" (some "date-time") none none none)
  | .password => .ok (.prim "string" (some "password") none none none)
  | .email => .ok (.prim "string" (some "email") none none none)
  | .number => .ok (.prim "number" none none none none)
  | .float => .ok (.prim "number" (some "float") none none none)
  | .double => .ok (.prim "number" (some "double") none none none)
  | .integer => .ok (.prim "integer" none none none none)
  | .int32 => .ok (.prim "integer" (some "int32") none none none)
  | .int64 => .ok (.prim "integer" (some "int64") none none none)
  | .component n _ => .ok (createReference n)
  | .arr _ _ => .error (.typeError "array compile not modelled at this site")

/-- `ParamBuilder.build_param` (`builders.py` 300-312) with a `schema`
keyword, as `PathItemBuilder` invokes it for a path placeholder: the field
type is compiled, and when it is a component class the bare compiled
reference is returned instead of a `ParameterObject` (`builders.py`
305-308); otherwise a `ParameterObject` with the given `in`-field carries
the schema (its schema-xor-content root validator passes since only
`schema` is set). -/
inductive ParamBuildResult where
  | param (p : ParameterObject)
  | rawSchema (s : Schema)

/-- `ParamBuilder('path').build_param(name=..., schema=..., required=True)`
(`builders.py` 263-266). -/
def buildPathParam (name : String) (t : PyType) :
    Except PyErr ParamBuildResult :=
  match createSchemaV2 t with
  | .error e => .error e
  | .ok s =>
      if isComponentSub t then .ok (.rawSchema s)
      else
        .ok (.param
          { name := name, inField := "path", required := some true,
            schemaField := some s })

/-- The `for name, _type in parse_name_and_type_from_fmt_str(path, ...)`
loop of `PathItemBuilder.__call__` (`builders.py` 259-267), building one
implicit path parameter per resolved placeholder.  (The `allowed_types`
extension of the missing newer `parse_name_and_type_from_fmt_str` —
resolution against registered parameter components — is not exercised by
the claims.) -/
def buildPathParamList : List (String × PyType) →
    Except PyErr (List ParamBuildResult)
  | [] => .ok []
  | (n, t) :: rest =>
      match buildPathParam n t with
      | .error e => .error e
      | .ok p =>
          match buildPathParamList rest with
          | .error e => .error e
          | .ok l => .ok (p :: l)

/-- The `PathItemObject` emitted per path group (`schemas.py` 823-876,
fields this pipeline populates). -/
structure PathItemObject where
  methodOps : List (String × OperationObject)
  parameters : Option (List ParamBuildResult) := none
  description : Option String := none

/-- The method loop of `PathItemBuilder.__call__` (`builders.py` 234-240):
each method runs `OperationBuilder.__call__` — an exception propagating
immediately while the global cache survives — and the emitted operation is
popped from `BuilderBus.operations[method]` into the `attrs` dict. -/
def pathItemMethodLoop (ms : List MethodDecl) (bus : BusState)
    (attrs : List (String × OperationObject)) :
    BusState × Except PyErr (List (String × OperationObject)) :=
  match ms with
  | [] => (bus, .ok attrs)
  | m :: rest =>
      match operationBuilderCall m bus with
      | (bus1, .error e) => (bus1, .error e)
      | (bus1, .ok _) =>
          match busGet bus1.operationsQ m.key with
          | [] => pathItemMethodLoop rest bus1 attrs
          | op :: q =>
              pathItemMethodLoop rest
                { bus1 with operationsQ := busSet bus1.operationsQ m.key q }
                (dictInsert attrs m.mname op)

/-- `PathItemBuilder.__call__` (`builders.py` 231-276): the method loop,
then the class docstring, then the implicit path parameters parsed from the
path template.  (Class-level `summary`/`servers`/`parameters` attributes
are not exercised by the claims and are omitted.) -/
def pathItemBuilderCall (path : String) (doc : Option String)
    (ms : List MethodDecl) (bus : BusState) :
    BusState × Except PyErr PathItemObject :=
  match pathItemMethodLoop ms bus [] with
  | (bus1, .error e) => (bus1, .error e)
  | (bus1, .ok attrs) =>
      match parseNameAndTypeFromFmtStr path with
      | .error e => (bus1, .error e)
      | .ok nts =>
          match buildPathParamList nts with
          | .error e => (bus1, .error e)
          | .ok ps =>
              (bus1,
                .ok
                  { methodOps := attrs,
                    parameters := if ps.isEmpty then none else some ps,
                    description := formatDescription doc })

/-- The paths map accumulated by `PathsBuilder` (`builders.py` 344,
366-371): `None` until the first successful group, then a dict keyed by
normalised path. -/
structure PathsBuilderState where
  build : Option (List (String × PathItemObject)) := none

/-- `PathsBuilder.__call__` on one path-group class (`builders.py`
346-373): run `PathItemBuilder`, normalise the path template, and insert
the emitted path item into the builds map.  On an exception the builds map
is untouched (and the surviving bus cache is returned as mutated so far);
`some e` in the third component is the raised error. -/
def pathsBuilderCall (path : String) (doc : Option String)
    (ms : List MethodDecl) (bus : BusState) (st : PathsBuilderState) :
    BusState × PathsBuilderState × Option PyErr :=
  match pathItemBuilderCall path doc ms bus with
  | (bus1, .error e) => (bus1, st, some e)
  | (bus1, .ok item) =>
      let p := normalizePath path
      match st.build with
      | none => (bus1, { build := some [(p, item)] }, none)
      | some m => (bus1, { build := some (dictInsert m p item) }, none)

/-- `ObjectsDTSchema` (`schemas.py` 164-169) as `ComponentBuilder.__call__`
constructs it: the compiled properties and `required or None`. -/
structure ObjectsDTSchema where
  properties : List (String × Schema)
  required : Option (List String) := none

/-- The schema-category state of the new `ComponentBuilder` (`builders.py`
424-508).  (The other category stores are not exercised by the claims.) -/
structure ComponentBuilderState where
  schemaBuilds : List (String × ObjectsDTSchema) := []
  cache : Option (Option (List (String × ObjectsDTSchema))) := none

/-- `ComponentBuilder.__call__` (`builders.py` 475-508) registering a
schema component: the compiled properties and required list (inputs here,
built by the missing newer `create_schema` from the marked field functions)
are packed into an `ObjectsDTSchema` and *unconditionally* assigned —
`self._schema_builds[cls.__name__] = ...` — with no duplicate check of any
kind; the function never raises, and re-registration simply overwrites. -/
def componentBuilderCall (st : ComponentBuilderState) (clsName : String)
    (properties : List (String × Schema)) (required : List String) :
    ComponentBuilderState :=
  { st with
      schemaBuilds := dictInsert st.schemaBuilds clsName
        { properties := properties,
          required := if required.isEmpty then none else some required } }

/-- `ComponentBuilder.build` (`builders.py` 537-552), memoized:
`schemas=self._schema_builds or None` on first access, the cached
`ComponentsObject` afterwards. -/
def componentBuilderBuild (st : ComponentBuilderState) :
    Option (List (String × ObjectsDTSchema)) × ComponentBuilderState :=
  match st.cache with
  | some c => (c, st)
  | none =>
      let c := if st.schemaBuilds.isEmpty then none else some st.schemaBuilds
      (c, { st with cache := some c })

/-- `InfoObject` (`schemas.py` 320-343, populated fields). -/
structure InfoObject where
  title : String
  version : String
  description : Option String := none
  deriving DecidableEq

/-- `ServerBuilder.build` (`builders.py` 404-414): with no declared servers
a single default server `url='/'`, `description="Default server"`. -/
def serverBuilderBuild (builds : List ServerObject) : List ServerObject :=
  match builds with
  | [] => [{ url := "/", description := some "Default server" }]
  | l => l

/-- The sub-builder registries `OpenApiBuilder.build` reads (`builders.py`
648-673): `InfoBuilder._build`, `ServerBuilder._builds`,
`PathsBuilder.build`, and the component builder state.
(`SecurityBuilder.build` is always `None`, and the tag/external-doc
builders are not exercised by the claims.) -/
structure BuilderRegistries where
  infoState : Option InfoObject := none
  serverState : List ServerObject := []
  pathsState : PathsBuilderState := {}
  componentState : ComponentBuilderState := {}

/-- The root `OpenApiObject` document (`schemas.py` 940-976, populated
fields). -/
structure OpenApiObject where
  openapi : String
  info : InfoObject
  servers : List ServerObject
  paths : List (String × PathItemObject)
  components : Option (List (String × ObjectsDTSchema))

/-- The `self.schema(openapi=..., info=..., ...)` assembly inside
`OpenApiBuilder.build` (`builders.py` 663-673).  The pydantic
`OpenApiObject` requires `info` and `paths`; a still-`None` builder output
for either raises a `ValidationError`.  `ComponentBuilder.build` memoizes
internally, so the possibly updated component state is returned. -/
def assembleDocument (version : String) (r : BuilderRegistries) :
    Except PyErr (OpenApiObject × BuilderRegistries) :=
  match r.infoState with
  | none => .error (.valueError "field required: info")
  | some info =>
      match r.pathsState.build with
      | none => .error (.valueError "field required: paths")
      | some paths =>
          match componentBuilderBuild r.componentState with
          | (comps, cstate1) =>
              .ok
                ({ openapi := version, info := info,
                   servers := serverBuilderBuild r.serverState,
                   paths := paths, components := comps },
                  { r with componentState := cstate1 })

/-- `OpenApiBuilder` state: its version, the sub-builder registries, and
the `_build` memo (`builders.py` 648-659). -/
structure OpenApiBuilderState where
  version : String
  regs : BuilderRegistries
  cache : Option OpenApiObject := none

/-- The `build` property of `OpenApiBuilder` (`builders.py` 661-675):
`if self._build is None: self._build = self.schema(...)`; otherwise the
cached document is returned untouched.  An assembly exception leaves the
memo unset (the assignment never happens). -/
def openApiBuilderBuild (s : OpenApiBuilderState) :
    Except PyErr OpenApiObject × OpenApiBuilderState :=
  match s.cache with
  | some d => (.ok d, s)
  | none =>
      match assembleDocument s.version s.regs with
      | .error e => (.error e, s)
      | .ok (d, regs1) =>
          (.ok d, { s with regs := regs1, cache := some d })

/-! Concrete fixtures used by the counterexample and witness theorems. -/

/-- A query parameter fragment queued on the bus by a `ParamBuilder`
decorator. -/
def queryParamLimit : ParameterObject :=
  { name := "limit", inField := "query" }

/-- A well-formed `200` response declaration. -/
def respOk200 : ResponseDecl :=
  { status := 200, description := "ok" }

/-- A declared request body with one JSON media type. -/
def rbFixture : RequestBodyVal :=
  { content := [("application/json", "Pet")] }

/-- A `post` method whose operation is valid. -/
def postMethodDecl : MethodDecl :=
  { key := 0, mname := "post",
    op := { requestBody := .absentNone, responses := [respOk200] } }

/-- A `get` method that declares a request body. -/
def getMethodWithBody : MethodDecl :=
  { key := 1, mname := "get",
    op := { requestBody := .declared rbFixture, responses := [respOk200] } }

/-- A `get` method with no request body. -/
def getMethodNoBody : MethodDecl :=
  { key := 2, mname := "get",
    op := { requestBody := .absentNone, responses := [respOk200] } }

/-- A bus cache holding one queued query-parameter fragment for the method
object `0`. -/
def busWithParam : BusState :=
  { requestBodies := [], responsesQ := [], operationsQ := [],
    parametersQ := [(0, [queryParamLimit])] }

/-- First `Pet` schema content. -/
def petPropsA : List (String × Schema) :=
  [("name", .prim "string" none none none none)]

/-- A different `Pet` schema content. -/
def petPropsB : List (String × Schema) :=
  [("age", .prim "integer" none none none none)]

/-- A server variable with a default. -/
def userVar : ServerVariableObject :=
  { default := "demo" }

/-- A minimal valid info object. -/
def infoFixture : InfoObject :=
  { title := "t", version := "0.0.1" }

/-- Registries for which document assembly succeeds. -/
def regsFixture : BuilderRegistries :=
  { infoState := some infoFixture, pathsState := { build := some [] } }

/-- The operation object the successful `post` fixture emits. -/
def opFixture : OperationObject :=
  { description := none, responses := [("200", respOk200)],
    requestBody := none, parameters := some [queryParamLimit] }

/-- The document assembled from `regsFixture`. -/
def docFixture : OpenApiObject :=
  { openapi := "3.0.0", info := infoFixture,
    servers := [{ url := "/", description := some "Default server" }],
    paths := [], components := none }

/-- `regsFixture` after its component builder memoized. -/
def regs1Fixture : BuilderRegistries :=
  { infoState := some infoFixture, pathsState := { build := some [] },
    componentState := { schemaBuilds := [], cache := some none } }

/-- A mutation of the registries (a server declared late). -/
def regsMutatedFixture : BuilderRegistries :=
  { infoState := some infoFixture,
    serverState := [{ url := "https://x.example" }],
    pathsState := { build := some [] } }


/-! Helper lemmas. -/

theorem dictGet_dictInsert_self {α : Type} (m : List (String × α))
    (k : String) (v : α) : dictGet (dictInsert m k v) k = some v := by
  induction m with
  | nil => simp [dictInsert, dictGet]
  | cons h t ih =>
      obtain ⟨k0, v0⟩ := h
      by_cases hk : k0 = k <;> simp [dictInsert, dictGet, hk, ih]

theorem dictGet_dictInsert_ne {α : Type} (m : List (String × α))
    (k k2 : String) (v : α) (h : k2 ≠ k) :
    dictGet (dictInsert m k v) k2 = dictGet m k2 := by
  induction m with
  | nil => simp [dictInsert, dictGet, Ne.symm h]
  | cons hd t ih =>
      obtain ⟨k0, v0⟩ := hd
      by_cases hk : k0 = k
      · subst hk
        simp [dictInsert, dictGet, Ne.symm h]
      · by_cases hk2 : k0 = k2 <;> simp [dictInsert, dictGet, hk, hk2, ih, h]

theorem busGet_busSet_self {α : Type} (q : List (Nat × List α)) (k : Nat)
    (v : List α) : busGet (busSet q k v) k = v := by
  induction q with
  | nil => simp [busSet, busGet]
  | cons h t ih =>
      obtain ⟨k0, v0⟩ := h
      by_cases hk : k0 = k <;> simp [busSet, busGet, hk, ih]

theorem busGet_busSet_ne {α : Type} (q : List (Nat × List α)) (k k2 : Nat)
    (v : List α) (h : k2 ≠ k) :
    busGet (busSet q k v) k2 = busGet q k2 := by
  induction q with
  | nil => simp [busSet, busGet, Ne.symm h]
  | cons hd t ih =>
      obtain ⟨k0, v0⟩ := hd
      by_cases hk : k0 = k
      · subst hk
        simp [busSet, busGet, Ne.symm h]
      · by_cases hk2 : k0 = k2 <;> simp [busSet, busGet, hk, hk2, ih, h]

/-- `create_schema` dispatches every `Array` subclass to
`convert_array_to_schema`. -/
theorem createSchema_arr_eq (nm : ArrayName) (tvars : PyTypeList)
    (i : Option Bool) (d : Option String) (r : Option Bool)
    (e : Option String) :
    createSchema (.arr nm tvars) i d r e = convertArrayToSchema tvars := by
  cases tvars with
  | nil => rfl
  | cons h t => cases t <;> rfl

/-- C1: evaluation of the checked-in compiler at the claim's array laws.
Against the `objects.py` class hierarchy that `utils.py` imports, all
three laws diverge: `Array[...]` has an empty `tvars`, so it takes the
mixed branch and compiles to `items = \x7b'oneOf': []\x7d` instead of
`items = \x7b\x7d`; `Array[Int64]` raises
`ValueError("Attr for Int64 not defined.")` because `Integer` is not a
`Number` subclass in `objects.py`, and the spec's mixed example
`Array[Int64, Email]` fails the same way; a mixed array containing a
component member raises `AssertionError` because the misspelled
`if_reference=True` leaves `is_reference=None`.  A mixed array of
compilable members does preserve member order. -/
theorem compileArrayLaws_divergence :
    createSchema (.arr .anyArr .nil) none none none none =
      .ok (.arrayOneOf []) ∧
    createSchema (.arr .singleArr (.cons .int64 .nil)) none none none none =
      .error (.valueError "Attr for Int64 not defined.") ∧
    createSchema (.arr .mixedArr (.cons .int64 (.cons .email .nil)))
      none none none none =
      .error (.valueError "Attr for Int64 not defined.") ∧
    createSchema (.arr .mixedArr
        (.cons .email (.cons (.component "Pet" petPropsA) .nil)))
      none none none none = .error .assertionError ∧
    createSchema (.arr .mixedArr (.cons .email (.cons .boolean .nil)))
      none none none none =
      .ok (.arrayOneOf [Schema.prim "string" (some "email") none none none,
        Schema.prim "boolean" none none none none]) :=
  ⟨rfl, rfl, rfl, rfl, rfl⟩

/-- C2 counterexample: `ParamBuilder.build_param` (`builder.py` 299-318) is
a compilation site other than the registry — its annotation explicitly
admits a `Component` field — yet compiling a component there does not
yield the reference node: `create_schema(field)` is called with no
`is_reference`, so the `assert is_reference is not None` fails. -/
theorem componentExactRef_counterexample :
    paramBuildSchema (.component "Pet" petPropsA) = .error .assertionError ∧
    (Except.error .assertionError : Except PyErr Schema) ≠
      .ok (.ref "#/components/schemas/Pet") :=
  ⟨rfl, by simp⟩

/-- C2 amended: outside the single registry site a component is never
inlined — every site that passes `is_reference=True` (property schemas,
media-type content, the single-member array branch) yields exactly the
reference node, while the sites that let `is_reference` stay `None`
(`ParamBuilder.build_param`, the mixed-array member loop) raise an
`AssertionError` rather than producing any schema; only the registry site
(`is_reference=False`) produces the inline object schema, and no
`is_reference` value other than `False` can ever produce one. -/
theorem componentNeverInlined_outside_registry (n : String)
    (marked : List (String × Schema)) (d : Option String) (r : Option Bool)
    (e : Option String) (hn : n ≠ "AnyTypeArray") :
    createSchema (.component n marked) (some true) d r e =
      .ok (.ref ("#/components/schemas/" ++ n)) ∧
    buildPropertySchemaFromFunc (.component n marked) d r e =
      .ok (.ref ("#/components/schemas/" ++ n)) ∧
    (∀ mt, buildContentSchemaFromContent [(mt, .component n marked)] =
      .ok [(mt, .ref ("#/components/schemas/" ++ n))]) ∧
    convertArrayToSchema (.cons (.component n marked) .nil) =
      .ok (.arrayItems (.ref ("#/components/schemas/" ++ n))) ∧
    paramBuildSchema (.component n marked) = .error .assertionError ∧
    (∀ t2 ts, createSchemaList (.cons (.component n marked) (.cons t2 ts)) =
      .error .assertionError) ∧
    componentBuilderRegistrySchema n marked d =
      .ok (.obj d (componentProperties marked)) ∧
    (∀ i d2 r2 e2 pd props, i ≠ some false →
      createSchema (.component n marked) i d2 r2 e2 ≠
        .ok (.obj pd props)) := by
  have harb : (n == "AnyTypeArray") = false := by
    simp [hn]
  refine ⟨?_, ?_, ?_, ?_, ?_, ?_, ?_, ?_⟩
  · simp [createSchema, convertComponentToSchema, createReference]
  · simp [buildPropertySchemaFromFunc, createSchema, convertComponentToSchema,
      createReference]
  · intro mt
    simp [buildContentSchemaFromContent, buildContentLoop, createSchema,
      convertComponentToSchema, createReference, dictInsert]
  · simp [convertArrayToSchema, isArbType, pyName, harb, createSchema,
      convertComponentToSchema, createReference]
  · simp [paramBuildSchema, createSchema]
  · intro t2 ts
    simp [createSchemaList, createSchema]
  · simp [componentBuilderRegistrySchema, createSchema,
      convertComponentToSchema]
  · intro i d2 r2 e2 pd props hi
    match i with
    | none => simp [createSchema]
    | some true => simp [createSchema, convertComponentToSchema,
        createReference]
    | some false => exact absurd rfl hi

/-- Witness for `componentNeverInlined_outside_registry` at the component
`Pet`. -/
theorem componentNeverInlined_outside_registry_witness :
    createSchema (.component "Pet" petPropsA) (some true) none none none =
      .ok (.ref ("#/components/schemas/" ++ "Pet")) ∧
    createSchemaList (.cons (.component "Pet" petPropsA)
        (.cons .boolean .nil)) = .error .assertionError :=
  ⟨(componentNeverInlined_outside_registry "Pet" petPropsA none none none
      (by decide)).1,
    (componentNeverInlined_outside_registry "Pet" petPropsA none none none
      (by decide)).2.2.2.2.2.1 .boolean .nil⟩

/-- C8: the path-template round trip for `"/pets/\x7bid:Int64\x7d"`:
`parse_name_and_type_from_fmt_str` yields exactly `[("id", Int64)]`, the
`re.sub` normalisation yields `"/pets/\x7bid\x7d"`, and the extracted
placeholder becomes one implicit path parameter with `required=True`
carrying the compiled `\x7btype: integer, format: int64\x7d` schema. -/
theorem pathTemplateRoundTrip :
    parseNameAndTypeFromFmtStr "/pets/\x7bid:Int64\x7d" =
      .ok [("id", .int64)] ∧
    normalizePath "/pets/\x7bid:Int64\x7d" = "/pets/\x7bid\x7d" ∧
    buildPathParamList [("id", .int64)] =
      .ok [ParamBuildResult.param ⟨"id", "path", some true,
        some (Schema.prim "integer" (some "int64") none none none)⟩] :=
  ⟨rfl, rfl, rfl⟩

/-- A token list containing a bare (type-annotation-free) placeholder makes
`parse_name_and_type_from_fmt_str` raise: the empty type name resolves to
no attribute of `pyopenapi3.objects`, and the resulting `AttributeError`
is converted to a `ValueError`. -/
theorem parseNameAndTypeTokens_err (toks : List FmtToken)
    (h : ∃ t ∈ toks, ∃ n, t.field = some (n, "")) :
    ∃ e, parseNameAndTypeTokens toks = .error e := by
  induction toks with
  | nil => simp at h
  | cons tok rest ih =>
      obtain ⟨t, ht, n, hf⟩ := h
      rcases List.mem_cons.1 ht with rfl | htr
      · refine ⟨.valueError ("A non-`Field` or `OpenApiObject` type " ++
          "was found. Can't use `" ++ "" ++ "` as a type."), ?_⟩
        simp [parseNameAndTypeTokens, hf, getFieldFromName, objectsAttr]
      · rcases ih ⟨t, htr, n, hf⟩ with ⟨e, he⟩
        cases hfield : tok.field with
        | none =>
            exact ⟨e, by simp [parseNameAndTypeTokens, hfield, he]⟩
        | some p =>
            obtain ⟨a, tn⟩ := p
            cases hg : getFieldFromName tn with
            | error e2 =>
                refine ⟨.valueError ("A non-`Field` or `OpenApiObject` " ++
                  "type was found. Can't use `" ++ tn ++ "` as a type."), ?_⟩
                simp [parseNameAndTypeTokens, hfield, hg]
            | ok t2 =>
                exact ⟨e, by simp [parseNameAndTypeTokens, hfield, hg, he]⟩

/-- C10: a path template containing a bare `\x7bname\x7d` placeholder
(no `:TypeName` annotation) always makes
`parse_name_and_type_from_fmt_str` raise — untyped placeholders are
rejected, never accepted as untyped path parameters. -/
theorem untypedPlaceholderRejected (s : String)
    (h : ∃ t ∈ fmtParse s, ∃ n, t.field = some (n, "")) :
    ∃ e, parseNameAndTypeFromFmtStr s = .error e :=
  parseNameAndTypeTokens_err (fmtParse s) h

/-- Witness for `untypedPlaceholderRejected` at `"/pets/\x7bid\x7d"`. -/
theorem untypedPlaceholderRejected_witness :
    ∃ e, parseNameAndTypeFromFmtStr "/pets/\x7bid\x7d" = .error e :=
  untypedPlaceholderRejected "/pets/\x7bid\x7d"
    ⟨⟨"/pets/", some ("id", "")⟩, List.mem_singleton_self _, "id", rfl⟩

/-- C7 counterexample: with url `"https://\x7buser\x7d.x.com/\x7bbase\x7d"`
and *no* `variables` map declared at all, `ServerObject` builds
successfully — the pydantic validator is skipped for an unsupplied field —
although the claim requires the mismatch error; and with url
`"https://\x7buser\x7d.x.com/v1"` (trailing literal text) the *exact*
variables map `\x7buser: ...\x7d` is rejected, although the claim requires
success, because `Formatter().parse` emits a final `(literal, None, ...)`
element and `None in variables` is `False`. -/
theorem serverVarBijection_counterexample :
    mkServerObject "https://\x7buser\x7d.x.com/\x7bbase\x7d" none none =
      .ok { url := "https://\x7buser\x7d.x.com/\x7bbase\x7d" } ∧
    mkServerObject "https://\x7buser\x7d.x.com/v1" none
        (some [("user", userVar)]) =
      .error (.valueError
        ("Any, and only any, variable defined in the url must exist " ++
          "in `variables`.")) :=
  ⟨rfl, rfl⟩

/-- C7 amended: when no `variables` map is declared the server always
builds (the validator is skipped); when a map `v` is declared, the build
succeeds exactly when every element of the parsed url — each placeholder
name, and the `none` marker contributed by trailing literal text — is a
key of `v`, and `v` has no more keys than there are parsed elements.  For
a url made of distinct placeholders and ending in a placeholder this is
the claimed key-set bijection; in general it is not. -/
theorem serverVarValidation_characterization (url : String)
    (d : Option String) (v : List (String × ServerVariableObject)) :
    mkServerObject url d none = .ok { url := url, description := d } ∧
    ((∃ s, mkServerObject url d (some v) = .ok s) ↔
      ((∀ a ∈ fmtFieldNames url, ∃ n, a = some n ∧ dictMem v n) ∧
        v.length ≤ (fmtFieldNames url).length)) := by
  refine ⟨rfl, ?_⟩
  constructor
  · intro ⟨s, hs⟩
    by_cases hc : urlVarsCheck url v
    · have hall := hc
      unfold urlVarsCheck at hall
      simp only [Bool.and_eq_true, List.all_eq_true, decide_eq_true_eq]
        at hall
      obtain ⟨h1, h2⟩ := hall
      refine ⟨?_, h2⟩
      intro a ha
      have := h1 a ha
      cases a with
      | none => simp at this
      | some n => exact ⟨n, rfl, this⟩
    · simp [mkServerObject, hc] at hs
  · intro ⟨h1, h2⟩
    have hc : urlVarsCheck url v = true := by
      unfold urlVarsCheck
      simp only [Bool.and_eq_true, List.all_eq_true, decide_eq_true_eq]
      refine ⟨?_, h2⟩
      intro a ha
      rcases h1 a ha with ⟨n, rfl, hn⟩
      exact hn
    exact ⟨{ url := url, description := d, varsMap := some v },
      by simp [mkServerObject, hc]⟩

/-- The key loop of the response validator succeeds exactly when every key
parses to a status in `range(100, 600)`. -/
theorem validateStatusKeys_ok_iff (l : List String) :
    validateStatusKeys l = .ok () ↔
      ∀ k ∈ l, ∃ n : Int, pyInt k = some n ∧ 100 ≤ n ∧ n < 600 := by
  induction l with
  | nil => simp [validateStatusKeys]
  | cons k ks ih =>
      simp only [validateStatusKeys]
      cases hk : pyInt k with
      | none =>
          simp only [List.mem_cons]
          constructor
          · intro h
            cases h
          · intro h
            rcases h k (Or.inl rfl) with ⟨n, hn, _⟩
            rw [hk] at hn
            cases hn
      | some n =>
          by_cases hn : 100 ≤ n ∧ n < 600
          · simp only [if_pos hn, ih, List.mem_cons]
            constructor
            · intro h kk hkk
              rcases hkk with rfl | hkk
              · exact ⟨n, hk, hn⟩
              · exact h kk hkk
            · intro h kk hkk
              exact h kk (Or.inr hkk)
          · simp only [if_neg hn, List.mem_cons]
            constructor
            · intro h
              cases h
            · intro h
              rcases h k (Or.inl rfl) with ⟨n2, hn2, hge, hlt⟩
              rw [hk] at hn2
              cases hn2
              exact absurd ⟨hge, hlt⟩ hn
      
/-- Every failure of the key loop is a `ValueError`. -/
theorem validateStatusKeys_error_shape (l : List String) (e : PyErr)
    (h : validateStatusKeys l = .error e) : ∃ msg, e = .valueError msg := by
  induction l with
  | nil => cases h
  | cons k ks ih =>
      simp only [validateStatusKeys] at h
      split at h
      · exact ⟨_, (Except.error.inj h).symm⟩
      · split at h
        · exact ih h
        · exact ⟨_, (Except.error.inj h).symm⟩

/-- C3: `validate_response_mapping` accepts a responses map exactly when
every key is the literal `"default"` or `int(key)` parses to an integer in
the inclusive range `[100, 599]`; any other key raises the invalid-status
`ValueError`.  In particular `"100"`, `"599"` and `"default"` are accepted
while `"99"`, `"600"` and `"abc"` are rejected. -/
theorem responseStatusRule_iff (keys : List String) :
    (validateResponseMapping keys = .ok () ↔
      ∀ k ∈ keys, k = "default" ∨
        ∃ n : Int, pyInt k = some n ∧ 100 ≤ n ∧ n ≤ 599) ∧
    (∀ e, validateResponseMapping keys = .error e →
      ∃ msg, e = .valueError msg) ∧
    validateResponseMapping ["100", "599", "default"] = .ok () ∧
    validateResponseMapping ["99"] =
      .error (.valueError "Only valid status codes allowed.") ∧
    validateResponseMapping ["600"] =
      .error (.valueError "Only valid status codes allowed.") ∧
    (∃ msg, validateResponseMapping ["abc"] = .error (.valueError msg)) := by
  refine ⟨?_, ?_, rfl, rfl, rfl, ⟨_, rfl⟩⟩
  · unfold validateResponseMapping
    rw [validateStatusKeys_ok_iff]
    constructor
    · intro h k hk
      by_cases hd : k = "default"
      · exact Or.inl hd
      · rcases h k (List.mem_filter.2 ⟨hk, by simpa using hd⟩)
          with ⟨n, h1, h2, h3⟩
        exact Or.inr ⟨n, h1, h2, by omega⟩
    · intro h k hk
      rcases List.mem_filter.1 hk with ⟨hk1, hk2⟩
      rcases h k hk1 with hd | ⟨n, h1, h2, h3⟩
      · simp [hd] at hk2
      · exact ⟨n, h1, h2, by omega⟩
  · intro e he
    exact validateStatusKeys_error_shape _ e he

/-- A `get` method with a declared request body makes
`OperationBuilder.__call__` raise the GET-no-body `ValueError` immediately:
nothing is pushed, drained or emitted (the cache is returned untouched). -/
theorem operationBuilderCall_getBody (m : MethodDecl) (bus : BusState)
    (rb : RequestBodyVal) (h1 : m.mname = "get")
    (h2 : m.op.requestBody = .declared rb) :
    operationBuilderCall m bus = (bus, .error getRequestBodyErr) := by
  simp [operationBuilderCall, h1, h2]

/-- No failure of the response-key loop is the GET-no-body error. -/
theorem validateStatusKeys_ne_getErr (l : List String) (e : PyErr)
    (h : validateStatusKeys l = .error e) : e ≠ getRequestBodyErr := by
  induction l with
  | nil => cases h
  | cons k ks ih =>
      simp only [validateStatusKeys] at h
      split at h
      · cases h
        intro hcontra
        have hmsg := PyErr.valueError.inj hcontra
        have hl := congrArg String.length hmsg
        rw [String.length_append, String.length_append,
          String.length_append] at hl
        have e1 :
            ("The only non-digit key for a response must be 'default'. " :
              String).length = 57 := by decide
        have e2 : ("Can't include '" : String).length = 15 := by decide
        have e3 : ("'" : String).length = 1 := by decide
        have e4 : ("GET operation cannot have a requestBody." :
            String).length = 40 := by decide
        omega
      · split at h
        · exact ih h
        · cases h
          decide

/-- When the request body is absent (`None` or `Ellipsis`) the operation
step can fail only inside response validation, never with the GET-no-body
error. -/
theorem operationBuilderCall_error_not_get (m : MethodDecl) (bus : BusState)
    (habs : m.op.requestBody = .absentNone ∨
      m.op.requestBody = .absentEllipsis)
    (bus2 : BusState) (e : PyErr)
    (h : operationBuilderCall m bus = (bus2, .error e)) :
    e ≠ getRequestBodyErr := by
  by_cases hc : m.mname = "get" ∧ m.op.requestBody ≠ .absentNone ∧
      m.op.requestBody ≠ .absentEllipsis
  · rcases habs with ha | ha
    · exact absurd ha hc.2.1
    · exact absurd ha hc.2.2
  · rw [operationBuilderCall, if_neg hc] at h
    dsimp only at h
    split at h
    · rename_i e2 heq
      cases h
      exact validateStatusKeys_ne_getErr _ _ heq
    · cases h

/-- A path group containing a `get` method with a declared request body
never completes its method loop: some exception is raised. -/
theorem pathItemMethodLoop_err_of_getBody (ms : List MethodDecl)
    (h : ∃ m ∈ ms, m.mname = "get" ∧
      ∃ rb, m.op.requestBody = .declared rb) :
    ∀ bus attrs, ∃ bus2 e, pathItemMethodLoop ms bus attrs =
      (bus2, .error e) := by
  induction ms with
  | nil => simp at h
  | cons m rest ih =>
      intro bus attrs
      rcases h with ⟨m0, hm0, hget, rb, hrb⟩
      rcases List.mem_cons.1 hm0 with rfl | hmr
      · refine ⟨bus, getRequestBodyErr, ?_⟩
        simp only [pathItemMethodLoop,
          operationBuilderCall_getBody m0 bus rb hget hrb]
      · cases hop : operationBuilderCall m bus with
        | mk bus1 res =>
            cases res with
            | error e =>
                exact ⟨bus1, e, by simp only [pathItemMethodLoop, hop]⟩
            | ok op =>
                have htail := ih ⟨m0, hmr, hget, rb, hrb⟩
                simp only [pathItemMethodLoop, hop]
                cases hq : busGet bus1.operationsQ m.key with
                | nil => exact htail bus1 attrs
                | cons o q => exact htail _ _

/-- C4: declaring a `GET` operation with any non-absent request body —
whatever its media types or fields — makes `OperationBuilder.__call__`
raise the GET-no-body `ValueError` with the cache untouched and no
operation emitted; a GET with no request body can never produce that
error; and any path group containing such a GET method fails as a whole,
so no path item is written into the paths map (the `PathsBuilder` state is
returned unchanged). -/
theorem getNoBody_rule (m : MethodDecl) (bus : BusState) :
    (∀ rb, m.mname = "get" → m.op.requestBody = .declared rb →
      operationBuilderCall m bus = (bus, .error getRequestBodyErr)) ∧
    (m.op.requestBody = .absentNone ∨ m.op.requestBody = .absentEllipsis →
      ∀ bus2 e, operationBuilderCall m bus = (bus2, .error e) →
        e ≠ getRequestBodyErr) ∧
    (∀ path doc ms st, m ∈ ms → m.mname = "get" →
      (∃ rb, m.op.requestBody = .declared rb) →
      ∃ bus2 e, pathsBuilderCall path doc ms bus st = (bus2, st, some e)) := by
  refine ⟨?_, ?_, ?_⟩
  · intro rb h1 h2
    exact operationBuilderCall_getBody m bus rb h1 h2
  · intro habs bus2 e h
    exact operationBuilderCall_error_not_get m bus habs bus2 e h
  · intro path doc ms st hmem hget hrb
    obtain ⟨bus2, e, hloop⟩ :=
      pathItemMethodLoop_err_of_getBody ms ⟨m, hmem, hget, hrb⟩ bus []
    exact ⟨bus2, e, by
      simp only [pathsBuilderCall, pathItemBuilderCall, hloop]⟩

/-- Witness for `getNoBody_rule`: the concrete `get` method with a declared
body fails on the empty cache, and a group made of it emits nothing. -/
theorem getNoBody_rule_witness :
    operationBuilderCall getMethodWithBody BusState.empty =
      (BusState.empty, .error getRequestBodyErr) ∧
    ∃ bus2 e, pathsBuilderCall "/pets" none [getMethodWithBody]
      BusState.empty { build := none } = (bus2, { build := none }, some e) :=
  ⟨(getNoBody_rule getMethodWithBody BusState.empty).1 rbFixture rfl rfl,
    (getNoBody_rule getMethodWithBody BusState.empty).2.2 "/pets" none
      [getMethodWithBody] { build := none } (List.mem_singleton_self _) rfl
      ⟨rbFixture, rfl⟩⟩

/-- `ResponseBuilder` pushes only onto the responses topic. -/
theorem responseBuilderCall_fields (rs : List ResponseDecl) (sub : Nat)
    (bus : BusState) :
    (responseBuilderCall rs sub bus).parametersQ = bus.parametersQ ∧
    (responseBuilderCall rs sub bus).requestBodies = bus.requestBodies ∧
    (responseBuilderCall rs sub bus).operationsQ = bus.operationsQ := by
  induction rs generalizing bus with
  | nil => exact ⟨rfl, rfl, rfl⟩
  | cons r rest ih => simpa [responseBuilderCall] using ih _

/-- `RequestBodyBuilder` pushes only onto the request-bodies topic. -/
theorem requestBodyBuilderCall_fields (rb : RequestBodyDecl) (k : Nat)
    (bus : BusState) :
    (requestBodyBuilderCall rb k bus).responsesQ = bus.responsesQ ∧
    (requestBodyBuilderCall rb k bus).parametersQ = bus.parametersQ ∧
    (requestBodyBuilderCall rb k bus).operationsQ = bus.operationsQ := by
  cases rb <;> exact ⟨rfl, rfl, rfl⟩

/-- The request-bodies deque after `RequestBodyBuilder` runs: one pushed
body when declared, untouched otherwise. -/
theorem requestBodyBuilderCall_queue (rb : RequestBodyDecl) (k : Nat)
    (bus : BusState) :
    busGet (requestBodyBuilderCall rb k bus).requestBodies k =
      (match rb with
       | .declared v => v :: busGet bus.requestBodies k
       | _ => busGet bus.requestBodies k) := by
  cases rb <;> simp [requestBodyBuilderCall, busPush, busGet_busSet_self]

/-- C5 counterexample: a path group that builds *successfully* does not
consume its queued parameter fragments — after the successful emission of
`/pets` the parameters deque for the group's method still holds the
fragment, so the per-group pending state is not "fully consumed and reset
on every exit path" as claimed. -/
theorem accumulatorFlush_counterexample :
    (pathsBuilderCall "/pets" none [postMethodDecl] busWithParam
      { build := none }).2.2 = none ∧
    busGet (pathsBuilderCall "/pets" none [postMethodDecl] busWithParam
      { build := none }).1.parametersQ 0 = [queryParamLimit] :=
  ⟨rfl, rfl⟩

/-- C5 amended: the accumulator has no flush-on-error guarantee and never
consumes parameters.  On the GET-no-body error exit the cache is returned
exactly as it was — nothing is consumed or reset; on a successful exit
(with the method's request-body deque previously empty, as for a fresh
method object) the responses deque is drained to empty and the
request-body deque is empty again, but the parameters deque is only
copied and keeps its entries. -/
theorem accumulatorFlush_amended (m : MethodDecl) (bus : BusState) :
    (∀ rb, m.mname = "get" → m.op.requestBody = .declared rb →
      (operationBuilderCall m bus).1 = bus) ∧
    (∀ bus2 op, busGet bus.requestBodies m.key = [] →
      operationBuilderCall m bus = (bus2, .ok op) →
      busGet bus2.responsesQ m.key = [] ∧
      busGet bus2.requestBodies m.key = [] ∧
      busGet bus2.parametersQ m.key = busGet bus.parametersQ m.key) := by
  constructor
  · intro rb h1 h2
    rw [operationBuilderCall_getBody m bus rb h1 h2]
  · intro bus2 op hrb0 h
    by_cases hc : m.mname = "get" ∧ m.op.requestBody ≠ .absentNone ∧
        m.op.requestBody ≠ .absentEllipsis
    · rw [operationBuilderCall, if_pos hc] at h
      cases h
    · rw [operationBuilderCall, if_neg hc] at h
      dsimp only at h
      obtain ⟨hp1, hb1, ho1⟩ := responseBuilderCall_fields m.op.responses
        m.key (requestBodyBuilderCall m.op.requestBody m.key bus)
      obtain ⟨hr2, hp2, ho2⟩ := requestBodyBuilderCall_fields
        m.op.requestBody m.key bus
      rw [hb1, requestBodyBuilderCall_queue] at h
      split at h
      · cases h
      · cases h
        rename_i heq
        cases hdecl : m.op.requestBody with
        | declared v =>
            simp only [hdecl] at hp1 hb1 ho1 hr2 hp2 ho2 ⊢
            simp only [hrb0]
            refine ⟨?_, ?_, ?_⟩ <;>
              simp [busGet_busSet_self, hp1, hp2]
        | absentNone =>
            simp only [hdecl] at hp1 hb1 ho1 hr2 hp2 ho2 ⊢
            simp only [requestBodyBuilderCall] at hp1 hb1 ho1 hr2 hp2 ho2
            simp only [hrb0]
            refine ⟨?_, ?_, ?_⟩ <;>
              simp [busGet_busSet_self, hp1, hp2, hb1, hr2, hrb0,
                requestBodyBuilderCall]
        | absentEllipsis =>
            simp only [hdecl] at hp1 hb1 ho1 hr2 hp2 ho2 ⊢
            simp only [requestBodyBuilderCall] at hp1 hb1 ho1 hr2 hp2 ho2
            simp only [hrb0]
            refine ⟨?_, ?_, ?_⟩ <;>
              simp [busGet_busSet_self, hp1, hp2, hb1, hr2, hrb0,
                requestBodyBuilderCall]

/-- Witness for `accumulatorFlush_amended`: the concrete successful `post`
step leaves the parameters deque exactly as it was. -/
theorem accumulatorFlush_amended_witness :
    busGet (operationBuilderCall postMethodDecl busWithParam).1.responsesQ
      0 = [] ∧
    busGet (operationBuilderCall postMethodDecl
      busWithParam).1.requestBodies 0 = [] ∧
    busGet (operationBuilderCall postMethodDecl
      busWithParam).1.parametersQ 0 = busGet busWithParam.parametersQ 0 :=
  (accumulatorFlush_amended postMethodDecl busWithParam).2
    (operationBuilderCall postMethodDecl busWithParam).1 opFixture rfl rfl

/-- C6 counterexample: registering `Pet` a second time with different
content raises nothing (`componentBuilderCall` is total — `builders.py` has
no duplicate check and no `DuplicateComponentError` exists anywhere in the
repository) and the registry afterwards holds the *second* definition, not
the first. -/
theorem duplicateComponent_counterexample :
    dictGet (componentBuilderCall
      (componentBuilderCall {} "Pet" petPropsA []) "Pet"
      petPropsB []).schemaBuilds "Pet" =
      some { properties := petPropsB, required := none } ∧
    ({ properties := petPropsB, required := none } : ObjectsDTSchema) ≠
      { properties := petPropsA, required := none } :=
  ⟨rfl, by simp [petPropsA, petPropsB]⟩

/-- C6 amended: re-registering a component name never raises — the call is
total and simply overwrites: afterwards the name maps to the new
definition (last write wins, also when the content is identical), and
every other name is untouched. -/
theorem componentReregistration_overwrites (st : ComponentBuilderState)
    (n : String) (props : List (String × Schema)) (req : List String) :
    componentBuilderCall st n props req =
      ⟨dictInsert st.schemaBuilds n
        ⟨props, if req.isEmpty then none else some req⟩, st.cache⟩ ∧
    dictGet (componentBuilderCall st n props req).schemaBuilds n =
      some ⟨props, if req.isEmpty then none else some req⟩ ∧
    (∀ n2, n2 ≠ n →
      dictGet (componentBuilderCall st n props req).schemaBuilds n2 =
        dictGet st.schemaBuilds n2) := by
  refine ⟨rfl, dictGet_dictInsert_self _ _ _, ?_⟩
  intro n2 hne
  exact dictGet_dictInsert_ne _ _ _ _ hne

/-- Witness for `componentReregistration_overwrites`: registering `Cat`
leaves the earlier `Pet` entry untouched. -/
theorem componentReregistration_overwrites_witness :
    dictGet (componentBuilderCall
      (componentBuilderCall {} "Pet" petPropsA []) "Cat"
      petPropsB []).schemaBuilds "Pet" =
      dictGet (componentBuilderCall {} "Pet" petPropsA []).schemaBuilds
        "Pet" :=
  (componentReregistration_overwrites
    (componentBuilderCall {} "Pet" petPropsA []) "Cat" petPropsB []).2.2
    "Pet" (by decide)

/-- C9: when the first `build` access assembles successfully, it caches the
document, and every later access — here after an arbitrary mutation of all
the sub-builder registries, covering paths, servers and components
declared afterwards — returns the identical cached document with the state
untouched (no recomputation: the result does not depend on the mutated
registries). -/
theorem documentBuildMemoized (v : String) (regs regs2 : BuilderRegistries)
    (d : OpenApiObject) (regs1 : BuilderRegistries)
    (h : assembleDocument v regs = .ok (d, regs1)) :
    openApiBuilderBuild ⟨v, regs, none⟩ =
      (.ok d, ⟨v, regs1, some d⟩) ∧
    openApiBuilderBuild ⟨v, regs2, some d⟩ =
      (.ok d, ⟨v, regs2, some d⟩) := by
  constructor
  · simp [openApiBuilderBuild, h]
  · rfl

/-- Witness for `documentBuildMemoized` on the concrete registries. -/
theorem documentBuildMemoized_witness :
    openApiBuilderBuild ⟨"3.0.0", regsFixture, none⟩ =
      (.ok docFixture, ⟨"3.0.0", regs1Fixture, some docFixture⟩) ∧
    openApiBuilderBuild ⟨"3.0.0", regsMutatedFixture, some docFixture⟩ =
      (.ok docFixture,
        ⟨"3.0.0", regsMutatedFixture, some docFixture⟩) :=
  documentBuildMemoized "3.0.0" regsFixture regsMutatedFixture docFixture
    regs1Fixture rfl

/-- Witness for `responseStatusRule_iff`: the boundary keys `"100"`,
`"599"`, `"default"` are all accepted. -/
theorem responseStatusRule_iff_witness :
    validateResponseMapping ["100", "599", "default"] = .ok () :=
  (responseStatusRule_iff ["100", "599", "default"]).1.mpr (by
    intro k hk
    simp only [List.mem_cons, List.not_mem_nil, or_false] at hk
    rcases hk with rfl | rfl | rfl
    · exact Or.inr ⟨100, rfl, by decide, by decide⟩
    · exact Or.inr ⟨599, rfl, by decide, by decide⟩
    · exact Or.inl rfl)

/-- Witness for `serverVarValidation_characterization`: the exact variable
set for `"https://\x7buser\x7d.x.com/\x7bbase\x7d"` validates. -/
theorem serverVarValidation_characterization_witness :
    ∃ s, mkServerObject "https://\x7buser\x7d.x.com/\x7bbase\x7d" none
      (some [("user", userVar), ("base", userVar)]) = .ok s :=
  (serverVarValidation_characterization
    "https://\x7buser\x7d.x.com/\x7bbase\x7d" none
    [("user", userVar), ("base", userVar)]).2.mpr (by
    refine ⟨?_, by decide⟩
    intro a ha
    rw [show fmtFieldNames "https://\x7buser\x7d.x.com/\x7bbase\x7d" =
      [some "user", some "base"] from rfl] at ha
    simp only [List.mem_cons, List.not_mem_nil, or_false] at ha
    rcases ha with rfl | rfl
    · exact ⟨"user", rfl, rfl⟩
    · exact ⟨"base", rfl, rfl⟩)

end Pyopenapi3
